import Mathlib

/-!
Shallow embedding of the aggregation-and-refresh core of the
Everpower marketing dashboard (React/TypeScript), together with proofs
checking the natural-language specification against the code.

The embedding models JavaScript numbers as an idealized type `JsNumber`
(exact rationals plus `NaN` and the two infinities, so that the
`parseFloat` failure mode is representable), strings as Lean `String`s,
and the React state of each screen as an explicit structure.  Every handler
is translated from the component source; asynchronous handlers are
modelled as functions from the pre-state and the (already-arrived)
HTTP response to the post-state plus an ordered list of emitted
side effects.
-/

/-- An idealized JavaScript `number`: `NaN`, the two infinities, or an
exact rational.  IEEE-754 rounding is intentionally abstracted away;
`nan` is what `parseFloat` yields on a string with no numeric prefix. -/
inductive JsNumber where
  | nan : JsNumber
  | posInf : JsNumber
  | negInf : JsNumber
  | finite : ℚ → JsNumber
deriving DecidableEq, Repr

/-- JavaScript `+` on `JsNumber`: `NaN` is absorbing and
`(+∞) + (−∞) = NaN`. -/
def JsNumber.add : JsNumber → JsNumber → JsNumber
  | .nan, _ => .nan
  | _, .nan => .nan
  | .posInf, .negInf => .nan
  | .negInf, .posInf => .nan
  | .posInf, _ => .posInf
  | _, .posInf => .posInf
  | .negInf, _ => .negInf
  | _, .negInf => .negInf
  | .finite a, .finite b => .finite (a + b)

instance : Add JsNumber := ⟨JsNumber.add⟩

instance : Zero JsNumber := ⟨JsNumber.finite 0⟩

theorem JsNumber.add_def (a b : JsNumber) : a + b = JsNumber.add a b := rfl

theorem JsNumber.add_assoc' (a b c : JsNumber) : a + b + c = a + (b + c) := by
  cases a <;> cases b <;> cases c <;>
    first
      | rfl
      | exact congrArg JsNumber.finite (add_assoc _ _ _)

theorem JsNumber.add_comm' (a b : JsNumber) : a + b = b + a := by
  cases a <;> cases b <;>
    first
      | rfl
      | exact congrArg JsNumber.finite (add_comm _ _)

theorem JsNumber.zero_add' (a : JsNumber) : 0 + a = a := by
  cases a <;>
    first
      | rfl
      | exact congrArg JsNumber.finite (zero_add _)

theorem JsNumber.add_zero' (a : JsNumber) : a + 0 = a := by
  cases a <;>
    first
      | rfl
      | exact congrArg JsNumber.finite (add_zero _)

instance : AddCommMonoid JsNumber where
  add_assoc := JsNumber.add_assoc'
  zero_add := JsNumber.zero_add'
  add_zero := JsNumber.add_zero'
  add_comm := JsNumber.add_comm'
  nsmul := nsmulRec

/-- One character of ASCII whitespace, as skipped by `parseFloat`. -/
def isWsChar (c : Char) : Bool :=
  c = ' ' || c = '\t' || c = '\n' || c = '\r'

/-- Drop leading whitespace, as `parseFloat` does. -/
def skipWs : List Char → List Char
  | [] => []
  | c :: cs => if isWsChar c then skipWs cs else c :: cs

/-- Consume a maximal run of decimal digits, extending the accumulator
`acc` and the digit count `n`; returns the value, the count and the
unconsumed remainder. -/
def parseDigitsAux : List Char → Nat → Nat → Nat × Nat × List Char
  | [], acc, n => (acc, n, [])
  | c :: cs, acc, n =>
      if c.isDigit then parseDigitsAux cs (10 * acc + (c.toNat - 48)) (n + 1)
      else (acc, n, c :: cs)

/-- Exponent digits after `e`/`E` and an optional sign: ignored (0)
when no digit follows, matching how `parseFloat` discards a dangling
exponent marker. -/
def expDigits (cs : List Char) (neg : Bool) : Int :=
  let p := parseDigitsAux cs 0 0
  if p.2.1 = 0 then 0 else if neg then -(p.1 : Int) else (p.1 : Int)

/-- Parse an optional `e`/`E` exponent; a marker not followed by digits
contributes exponent 0 (it is not part of the numeric prefix). -/
def parseExponent (cs : List Char) : Int :=
  if cs.headD ' ' = 'e' ∨ cs.headD ' ' = 'E' then
    let rest := cs.tail
    if rest.headD ' ' = '+' then expDigits rest.tail false
    else if rest.headD ' ' = '-' then expDigits rest.tail true
    else expDigits rest false
  else 0

/-- Parse an unsigned decimal number (`digits`, `digits.digits`,
`.digits`, optional exponent) as the longest valid prefix; `none` when
no digit is present, which is the `NaN` case of `parseFloat`. -/
def parseUnsigned (cs : List Char) : Option ℚ :=
  let p1 := parseDigitsAux cs 0 0
  if p1.2.2.headD ' ' = '.' then
    let p2 := parseDigitsAux p1.2.2.tail 0 0
    if p1.2.1 = 0 ∧ p2.2.1 = 0 then none
    else some (((p1.1 : ℚ) + (p2.1 : ℚ) / (10 : ℚ) ^ p2.2.1) *
               (10 : ℚ) ^ parseExponent p2.2.2)
  else
    if p1.2.1 = 0 then none
    else some ((p1.1 : ℚ) * (10 : ℚ) ^ parseExponent p1.2.2)

/-- The characters of the literal `Infinity` accepted by `parseFloat`. -/
def infinityChars : List Char := ['I', 'n', 'f', 'i', 'n', 'i', 't', 'y']

/-- After the optional sign: either the `Infinity` literal or an
unsigned decimal prefix; anything else is `NaN`. -/
def parseAfterSign (cs : List Char) (neg : Bool) : JsNumber :=
  if cs.take 8 = infinityChars then (if neg then .negInf else .posInf)
  else
    match parseUnsigned cs with
    | none => .nan
    | some q => .finite (if neg then -q else q)

/-- JavaScript `parseFloat`: skip whitespace, optional sign, then the
longest numeric prefix; `NaN` when there is none. -/
def jsParseFloat (s : String) : JsNumber :=
  match skipWs s.data with
  | [] => parseAfterSign [] false
  | c :: cs =>
      if c = '+' then parseAfterSign cs false
      else if c = '-' then parseAfterSign cs true
      else parseAfterSign (c :: cs) false

example : jsParseFloat "12.5" = .finite (25 / 2) := by
  simp +decide [jsParseFloat, skipWs, isWsChar, parseAfterSign, parseUnsigned,
    parseDigitsAux, parseExponent, expDigits, infinityChars]
  norm_num
example : jsParseFloat "1500.50" = .finite (3001 / 2) := by
  simp +decide [jsParseFloat, skipWs, isWsChar, parseAfterSign, parseUnsigned,
    parseDigitsAux, parseExponent, expDigits, infinityChars]
  norm_num
example : jsParseFloat "abc" = .nan := by decide
example : jsParseFloat "" = .nan := by decide
example : jsParseFloat "  -3e2" = .finite (-300) := by
  simp +decide [jsParseFloat, skipWs, isWsChar, parseAfterSign, parseUnsigned,
    parseDigitsAux, parseExponent, expDigits, infinityChars]
  norm_num
example : jsParseFloat "12abc" = .finite 12 := by
  simp +decide [jsParseFloat, skipWs, isWsChar, parseAfterSign, parseUnsigned,
    parseDigitsAux, parseExponent, expDigits, infinityChars]
example : jsParseFloat ".5" = .finite (1 / 2) := by
  simp +decide [jsParseFloat, skipWs, isWsChar, parseAfterSign, parseUnsigned,
    parseDigitsAux, parseExponent, expDigits, infinityChars]
  norm_num
example : jsParseFloat "." = .nan := by decide
example : jsParseFloat "Infinity" = .posInf := by decide
example : jsParseFloat "infinity" = .nan := by decide
example : jsParseFloat "1e" = .finite 1 := by
  simp +decide [jsParseFloat, skipWs, isWsChar, parseAfterSign, parseUnsigned,
    parseDigitsAux, parseExponent, expDigits, infinityChars]

/-- JavaScript `String.prototype.replace` with single-character pattern
and replacement: replaces only the first occurrence. -/
def replaceFirstChar : List Char → Char → Char → List Char
  | [], _, _ => []
  | c :: cs, a, b => if c = a then b :: cs else c :: replaceFirstChar cs a b

/-- JavaScript `s.replace(a, b)` for one-character `a`, `b` (first occurrence only). -/
def jsReplaceFirst (s : String) (a b : Char) : String :=
  ⟨replaceFirstChar s.data a b⟩

example : jsReplaceFirst "bank_transfer" '_' ' ' = "bank transfer" := by decide

/-- Does `sub` start the list `l`? (helper for substring search). -/
def charListStartsWith : List Char → List Char → Bool
  | _, [] => true
  | [], _ :: _ => false
  | c :: cs, d :: ds => c = d && charListStartsWith cs ds

/-- Does `l` contain `sub` as a contiguous run? (JS `includes`). -/
def charListContains : List Char → List Char → Bool
  | [], sub => sub.isEmpty
  | c :: cs, sub => charListStartsWith (c :: cs) sub || charListContains cs sub

/-- JavaScript `s.includes(sub)`. -/
def jsIncludes (s sub : String) : Bool := charListContains s.data sub.data

example : jsIncludes "client@everpower.com" "ever" = true := by decide
example : jsIncludes "abc" "" = true := by decide
example : jsIncludes "abc" "ac" = false := by decide

/-- JavaScript template interpolation of a possibly-null token:
`null` prints as the string `null`. -/
def jsTokenString : Option String → String
  | some t => t
  | none => "null"

/-- JavaScript `m || d` for an optional string `m` (the empty string is
falsy and also falls back to the default). -/
def jsOrDefault : Option String → String → String
  | some m, d => if m = "" then d else m
  | none, d => d

/-- JavaScript `toLowerCase` as the character-wise ASCII lowering
(`Char.toLower` on each character). -/
def lowerString (s : String) : String := ⟨s.data.map Char.toLower⟩

example : lowerString "BANK_TRANSFER" = "bank_transfer" := by decide

/-- The local part of an email, `email.split('@')[0]`. -/
def emailLocal (s : String) : String := ⟨s.data.takeWhile (· ≠ '@')⟩

example : emailLocal "client@everpower.com" = "client" := by decide

/-- Raw API payment record (`ApiPayment` in `src/types`): the amount is
a decimal string, method/status are upper-case strings. -/
structure ApiPayment where
  id : String
  year : Nat
  series : Nat
  invoice_id : String
  client_email : String
  amount : String
  method : String
  status : String
  date : String
  created_at : String
  updated_at : String
deriving DecidableEq, Repr

/-- Normalized view-model payment (`Payment` in `src/types`).  The
source declares `status` as the union
`completed | pending | failed | refunded`, but the mapper fills it by
an unchecked cast from the raw string, so it is a `String` here. -/
structure Payment where
  id : String
  transactionId : String
  invoiceNumber : String
  clientName : String
  amount : JsNumber
  paymentMethod : String
  status : String
  paidAt : String
  reference : String
deriving DecidableEq, Repr

/-- The mapping step in `fetchPayments` (`result.data.map(...)`,
PaymentManagement.tsx lines 82-92).  `fmtDate` abstracts
`new Date(d).toLocaleDateString()`, which is locale-dependent. -/
def mapPayment (fmtDate : String → String) (item : ApiPayment) : Payment :=
  { id := item.id
    transactionId := item.id
    invoiceNumber := item.invoice_id
    clientName := item.client_email
    amount := jsParseFloat item.amount
    paymentMethod := jsReplaceFirst (lowerString item.method) '_' ' '
    status := lowerString item.status
    paidAt := fmtDate item.date
    reference := "" }

/-- Reference cell of the payment-detail view: the reference of the
selected payment, with the fallback text `N/A` when it is falsy (in
particular when it is the empty string). -/
def viewedReference (p : Payment) : String :=
  if p.reference = "" then "N/A" else p.reference

/-- The row predicate of `filteredPayments`
(PaymentManagement.tsx lines 260-267). -/
def paymentMatches (searchTerm statusFilter methodFilter : String)
    (p : Payment) : Bool :=
  let matchesSearch :=
    jsIncludes (lowerString p.clientName) (lowerString searchTerm) ||
    jsIncludes (lowerString p.transactionId) (lowerString searchTerm) ||
    jsIncludes (lowerString p.invoiceNumber) (lowerString searchTerm)
  let matchesStatus := statusFilter == "all" || p.status == statusFilter
  let matchesMethod := methodFilter == "all" ||
    jsReplaceFirst p.paymentMethod ' ' '_' == jsReplaceFirst methodFilter ' ' '_'
  matchesSearch && matchesStatus && matchesMethod

/-- Source expression `payments.filter(...)` over search term and status/method filters. -/
def filteredPayments (searchTerm statusFilter methodFilter : String)
    (l : List Payment) : List Payment :=
  l.filter (paymentMatches searchTerm statusFilter methodFilter)

/-- Source expression `reduce((sum, payment) => sum + payment.amount, 0)` over a list. -/
def sumAmounts (l : List Payment) : JsNumber :=
  l.foldl (fun sum p => sum + p.amount) 0

/-- Summary statistic `totalAmount` (PaymentManagement.tsx line 358). -/
def totalAmount (l : List Payment) : JsNumber := sumAmounts l

/-- Summary statistic `amountByStatus(status)`: the per-status sum of which
`completedAmount` and `pendingAmount` (lines 359-364) are the
instances computed by the source. -/
def amountByStatus (st : String) (l : List Payment) : JsNumber :=
  sumAmounts (l.filter (fun p => p.status == st))

/-- Summary statistic `completedAmount` (lines 359-361). -/
def completedAmount (l : List Payment) : JsNumber := amountByStatus "completed" l

/-- Summary statistic `pendingAmount` (lines 362-364). -/
def pendingAmount (l : List Payment) : JsNumber := amountByStatus "pending" l

theorem sumAmounts_eq_sum_map (l : List Payment) :
    sumAmounts l = (l.map Payment.amount).sum := by
  rw [sumAmounts, List.sum_eq_foldl, List.foldl_map]

theorem sumAmounts_cons (p : Payment) (l : List Payment) :
    sumAmounts (p :: l) = p.amount + sumAmounts l := by
  simp [sumAmounts_eq_sum_map]

theorem amountByStatus_cons (st : String) (p : Payment) (l : List Payment) :
    amountByStatus st (p :: l) =
      if p.status = st then p.amount + amountByStatus st l
      else amountByStatus st l := by
  by_cases h : p.status = st
  · simp [amountByStatus, List.filter_cons, h, sumAmounts_cons]
  · simp [amountByStatus, List.filter_cons, h]

/-- Auxiliary partition lemma: over any list of payments whose statuses
all lie in the four-value enumeration declared by the `Payment` type,
the four per-status sums add up to the total. -/
theorem amountByStatus_partition (l : List Payment)
    (h : ∀ p ∈ l, p.status = "completed" ∨ p.status = "pending" ∨
        p.status = "failed" ∨ p.status = "refunded") :
    amountByStatus "completed" l + amountByStatus "pending" l +
      amountByStatus "failed" l + amountByStatus "refunded" l =
      totalAmount l := by
  induction l with
  | nil => simp [amountByStatus, totalAmount, sumAmounts]
  | cons p l ih =>
      have hp := h p (List.mem_cons_self p l)
      have hl : ∀ q ∈ l, q.status = "completed" ∨ q.status = "pending" ∨
          q.status = "failed" ∨ q.status = "refunded" :=
        fun q hq => h q (List.mem_cons_of_mem p hq)
      have ih' := ih hl
      have hTot : totalAmount (p :: l) = p.amount + totalAmount l := by
        simp [totalAmount, sumAmounts_cons]
      rcases hp with h1 | h1 | h1 | h1 <;>
        · rw [hTot, amountByStatus_cons, amountByStatus_cons,
            amountByStatus_cons, amountByStatus_cons, h1]
          simp only [reduceIte, ← ih']
          abel_nf

/-- Predicate `response.ok`: the HTTP status lies in the success range 200-299. -/
def respOk (status : Nat) : Bool := 200 ≤ status && status ≤ 299

/-- A list-endpoint response for payments: the status, the optional
`message` field of the JSON body, and the `data` array. -/
structure PaymentsListResponse where
  status : Nat
  message : Option String
  data : List ApiPayment
deriving DecidableEq, Repr

/-- A mutation (create/update/delete) response: the status and the
optional `message` field of the JSON body. -/
structure MutationResponse where
  status : Nat
  message : Option String
deriving DecidableEq, Repr

/-- The transient form of the payment create modal (`newPayment`). -/
structure NewPaymentForm where
  invoiceId : String
  clientEmail : String
  amount : String
  method : String
  status : String
  reference : String
  date : String
deriving DecidableEq, Repr

/-- The initial `useState` value of `newPayment` (line 50). -/
def initialNewPayment : NewPaymentForm :=
  ⟨"", "", "", "CASH", "COMPLETED", "", ""⟩

/-- The value `newPayment` is reset to on a successful create
(lines 165-173; note the default method changes to BANK_TRANSFER). -/
def resetNewPayment : NewPaymentForm :=
  ⟨"", "", "", "BANK_TRANSFER", "COMPLETED", "", ""⟩

/-- React state of the PaymentManagement screen. -/
structure PayScreenState where
  payments : List Payment
  loading : Bool
  error : Option String
  showCreateModal : Bool
  isSubmitting : Bool
  submitError : Option String
  newPayment : NewPaymentForm
deriving DecidableEq, Repr

/-- Handler `fetchPayments` (PaymentManagement.tsx lines 61-100), from the
moment the response arrives to the settled state.  `response.ok` is
false for every non-2xx status - including 304 - and the thrown error
carries the generic text built from the status; the `message` field of
the body is never consulted on the list path. -/
def fetchPaymentsRun (fmtDate : String → String) (s : PayScreenState)
    (resp : PaymentsListResponse) : PayScreenState :=
  if respOk resp.status then
    { s with loading := false, error := none,
             payments := resp.data.map (mapPayment fmtDate) }
  else
    { s with loading := false,
             error := some ("HTTP error! status: " ++ toString resp.status) }

/-- Ordered user-visible side effects emitted by mutation handlers. -/
inductive Effect where
  | closeModal : Effect
  | clearForm : Effect
  | refetch : Effect
  | notifySuccess : String → Effect
deriving DecidableEq, Repr

/-- Is an effect a success notification? -/
def Effect.isNotice : Effect → Bool
  | .notifySuccess _ => true
  | _ => false

/-- Handler `handleCreatePayment` (lines 129-181), from response arrival to the
settled state, with the ordered list of claimed side effects.  On
success: close the create modal, reset the form, refetch; there is no
success notification anywhere in PaymentManagement.  On failure: set
`submitError` from the body message (with the generic fallback), touch
nothing else, no refetch. -/
def handleCreatePaymentRun (s : PayScreenState) (resp : MutationResponse) :
    PayScreenState × List Effect :=
  let s1 := { s with isSubmitting := true, submitError := none }
  if respOk resp.status then
    ({ s1 with showCreateModal := false, newPayment := resetNewPayment,
               isSubmitting := false },
     [.closeModal, .clearForm, .refetch])
  else
    ({ s1 with
         submitError := some (jsOrDefault resp.message "An unknown error occurred."),
         isSubmitting := false },
     [])

/-- The Record Payment submit button (lines 715-721) is rendered with
`disabled={isSubmitting}`: while a submission is in flight a click
does not reach `handleCreatePayment`.  This models one click of that
button: either a no-op, or entry into the submitting state together
with the single POST request it issues. -/
def recordPaymentClick (apiUrl : String) (token : Option String)
    (s : PayScreenState) : PayScreenState × List String :=
  if s.isSubmitting then (s, [])
  else ({ s with isSubmitting := true, submitError := none },
        ["POST " ++ apiUrl ++ "/payments Bearer " ++ jsTokenString token])

/-- Raw invoice record as declared in InvoiceManagement.tsx. -/
structure InvoiceRec where
  id : String
  year : Nat
  series : Nat
  client_email : String
  client_phone : String
  amount : String
  status : String
  date : String
  due_date : String
  description : Option String
  stripe_pdf_url : String
  stripe_hosted_url : Option String
  over_due : String
  customer_id : Option Int
  created_at : String
  updated_at : String
deriving DecidableEq, Repr

/-- A toast notification shown by InvoiceManagement (`showToast`). -/
structure Toast where
  message : String
  kind : String
deriving DecidableEq, Repr

/-- React state of the InvoiceManagement screen (the parts the claims
are about). -/
structure InvScreenState where
  invoices : List InvoiceRec
  loading : Bool
  error : Option String
  showConfirmModal : Bool
  toast : Option Toast
deriving DecidableEq, Repr

/-- A list-endpoint response for invoices. -/
structure InvoicesListResponse where
  status : Nat
  message : Option String
  data : List InvoiceRec
deriving DecidableEq, Repr

/-- Handler `fetchInvoices` (InvoiceManagement.tsx lines 548-582), including
the token guard before the request and the dedicated 304 branch that
returns early, keeping the cached list and the cleared error. -/
def fetchInvoicesRun (s : InvScreenState) (token : Option String)
    (resp : InvoicesListResponse) : InvScreenState :=
  match token with
  | none =>
      { s with loading := false,
               error := some "No authentication token found.",
               toast := some ⟨"Failed to fetch invoices.", "error"⟩ }
  | some _ =>
      if resp.status = 304 then
        { s with loading := false, error := none }
      else if respOk resp.status then
        { s with loading := false, error := none, invoices := resp.data }
      else
        { s with loading := false,
                 error := some "Failed to fetch invoices.",
                 toast := some ⟨"Failed to fetch invoices.", "error"⟩ }

/-- The confirm action installed by `handleDeleteClick`
(InvoiceManagement.tsx lines 603-633), run with a token present, from
response arrival to the settled state.  On failure the confirmation
modal is CLOSED (`setShowConfirmModal(false)` sits in the catch
branch) and an error toast is shown. -/
def invoiceDeleteRun (s : InvScreenState) (resp : MutationResponse) :
    InvScreenState × List Effect :=
  if respOk resp.status then
    ({ s with showConfirmModal := false,
              toast := some ⟨"Invoice deleted successfully!", "deletion"⟩ },
     [.refetch, .closeModal, .notifySuccess "Invoice deleted successfully!"])
  else
    ({ s with error := some "Failed to delete invoice.",
              showConfirmModal := false,
              toast := some ⟨"Failed to delete invoice.", "error"⟩ },
     [.closeModal])

/-- Callback `handleInvoiceSaved` (InvoiceManagement.tsx lines 696-699): refetch
the list, then show the success toast. -/
def handleInvoiceSavedEffects (message : String) : List Effect :=
  [.refetch, .notifySuccess message]

/-- The toast message built by `handleSaveInvoice` (line 148). -/
def saveMessage (isEditing : Bool) : String :=
  if isEditing then "Invoice updated successfully!" else "Invoice created successfully!"

/-- The ordered effects of a successful `handleSaveInvoice`
(lines 148-150): `onInvoiceSaved(message)` - which refetches and
toasts - and only then `setShowModal(false)`. -/
def invoiceModalSuccessEffects (isEditing : Bool) : List Effect :=
  handleInvoiceSavedEffects (saveMessage isEditing) ++ [.closeModal]

/-- User record as declared in `src/types`. -/
structure UserRec where
  id : String
  email : String
  name : String
  role : String
  status : String
  createdAt : String
  lastLogin : Option String
deriving DecidableEq, Repr

/-- The add-user form fields of the UserManagement screen. -/
structure UserForm where
  name : String
  email : String
  password : String
  role : String
deriving DecidableEq, Repr

/-- React state of the UserManagement screen (the parts the claims are
about). -/
structure UserScreenState where
  users : List UserRec
  isLoading : Bool
  error : Option String
  showCreateModal : Bool
  isAddingUser : Bool
  addUserError : Option String
  form : UserForm
deriving DecidableEq, Repr

/-- A list-endpoint response for users. -/
structure UsersListResponse where
  status : Nat
  message : Option String
  data : List UserRec
deriving DecidableEq, Repr

/-- Handler `fetchUsers` (UserManagement lines 88-118): non-2xx statuses (304
included) throw the generic status message and CLEAR the stored users
(`setUsers([])` in the catch branch). -/
def fetchUsersRun (s : UserScreenState) (resp : UsersListResponse) :
    UserScreenState :=
  if respOk resp.status then
    { s with isLoading := false, error := none, users := resp.data }
  else
    { s with isLoading := false,
             error := some ("HTTP error! status: " ++ toString resp.status),
             users := [] }

/-- Handler `handleAddUser` (UserManagement lines 127-164), from response
arrival to the settled state.  On success the order is: refetch, clear
the form (role resets to `accountant`), close the modal; no success
notification exists on this screen.  The failure message is built from
the status, not from the body. -/
def handleAddUserRun (s : UserScreenState) (resp : MutationResponse) :
    UserScreenState × List Effect :=
  let s1 := { s with isAddingUser := true, addUserError := none }
  if respOk resp.status then
    ({ s1 with form := ⟨"", "", "", "accountant"⟩, showCreateModal := false,
               isAddingUser := false },
     [.refetch, .clearForm, .closeModal])
  else
    ({ s1 with
         addUserError := some ("Failed to add user! Status: " ++ toString resp.status),
         isAddingUser := false },
     [])

/-- An outgoing HTTP request as assembled by the screens. -/
structure HttpRequest where
  url : String
  httpMethod : String
  authHeader : String
deriving DecidableEq, Repr

/-- The request phase of `fetchPayments` (PaymentManagement.tsx lines
66-74): the token is read but never checked, so the GET is issued even
with no token - the Authorization header then interpolates the literal
text `null`. -/
def fetchPaymentsRequest (apiUrl : String) (token : Option String) :
    Option HttpRequest :=
  some ⟨apiUrl ++ "/payments", "GET", "Bearer " ++ jsTokenString token⟩

/-- The request phase of `handleCreatePayment` (lines 145-155): same
unchecked token. -/
def createPaymentRequest (apiUrl : String) (token : Option String) :
    Option HttpRequest :=
  some ⟨apiUrl ++ "/payments", "POST", "Bearer " ++ jsTokenString token⟩

/-- The request phase of `fetchInvoices` (InvoiceManagement.tsx lines
551-563): a missing token throws before `fetch`, so no request is
issued. -/
def fetchInvoicesRequest (apiUrl : String) (token : Option String) :
    Option HttpRequest :=
  match token with
  | none => none
  | some t => some ⟨apiUrl ++ "/invoices", "GET", "Bearer " ++ t⟩

/-- The request phase of `fetchUsers` (UserManagement lines 91-103):
unchecked token; the search term is appended as `?q=` only when it is
truthy (non-empty). -/
def fetchUsersRequest (apiUrl : String) (token : Option String)
    (searchTerm : String) : Option HttpRequest :=
  some ⟨apiUrl ++ "/users" ++ (if searchTerm = "" then "" else "?q=" ++ searchTerm),
        "GET", "Bearer " ++ jsTokenString token⟩

/-- Debtor summary `TopDebtor` as declared in `src/types`. -/
structure TopDebtor where
  clientEmail : String
  overdueInvoiceCount : Nat
  outstanding : ℚ
deriving DecidableEq, Repr

/-- One slice of a recharts pie series (`{ name, value }`). -/
structure ChartEntry where
  name : String
  value : ℚ
deriving DecidableEq, Repr

/-- The comparator `(a, b) => b.outstanding - a.outstanding` used on
the debtor list: descending outstanding (as a `Bool` order for the
stable sort). -/
def debtorGe (a b : TopDebtor) : Bool := b.outstanding ≤ a.outstanding

/-- The debtors sorted descending by outstanding, `[...].sort(...)`. -/
def sortedDebtors (l : List TopDebtor) : List TopDebtor :=
  l.mergeSort debtorGe

/-- The top-4 chart entries (`sorted.slice(0, topN).map(...)` with
`topN = 4`; names are the email local part). -/
def topDebtorEntries (l : List TopDebtor) : List ChartEntry :=
  ((sortedDebtors l).take 4).map (fun d => ⟨emailLocal d.clientEmail, d.outstanding⟩)

/-- Source expression `top.reduce((acc, cur) => acc + cur.value, 0)`. -/
def topDebtorSum (l : List TopDebtor) : ℚ :=
  (topDebtorEntries l).foldl (fun acc cur => acc + cur.value) 0

/-- Chart series `outstandingData` (Dashboard component, lines 79-93): empty guard,
defensive descending re-sort, top 4 debtors, and an `Others` slice
worth `totalOutstanding - topSum` appended only when that balance is
strictly positive. -/
def outstandingData (topDebtors : List TopDebtor) (totalOutstanding : ℚ) :
    List ChartEntry :=
  if topDebtors = [] then []
  else
    let top := topDebtorEntries topDebtors
    let topSum := top.foldl (fun acc cur => acc + cur.value) 0
    let balanceOutstanding := totalOutstanding - topSum
    if 0 < balanceOutstanding then top ++ [⟨"Others", balanceOutstanding⟩] else top

/-- The twenty-six lower-case ASCII letters: a convenient class of
characters none of which can open a numeric prefix for `parseFloat`
(note the capital I of the `Infinity` literal is not among them). -/
def lowerAlphaChars : List Char :=
  ['a', 'b', 'c', 'd', 'e', 'f', 'g', 'h', 'i', 'j', 'k', 'l', 'm',
   'n', 'o', 'p', 'q', 'r', 's', 't', 'u', 'v', 'w', 'x', 'y', 'z']

theorem lowerAlpha_facts : ∀ c ∈ lowerAlphaChars,
    isWsChar c = false ∧ c ≠ '+' ∧ c ≠ '-' ∧ c ≠ '.' ∧
    c.isDigit = false ∧ c ≠ 'I' := by decide

theorem parseDigitsAux_not_digit (c : Char) (cs : List Char) (acc n : Nat)
    (h : c.isDigit = false) :
    parseDigitsAux (c :: cs) acc n = (acc, n, c :: cs) := by
  simp [parseDigitsAux, h]

theorem jsParseFloat_nan_of_lowerAlpha (s : String)
    (h : ∀ c ∈ s.data, c ∈ lowerAlphaChars) :
    jsParseFloat s = JsNumber.nan := by
  rw [jsParseFloat]
  cases hd : s.data with
  | nil => rfl
  | cons c cs =>
      have hc : c ∈ lowerAlphaChars := h c (by rw [hd]; exact List.mem_cons_self c cs)
      obtain ⟨hws, hplus, hminus, hdot, hdig, hI⟩ := lowerAlpha_facts c hc
      have hskip : skipWs (c :: cs) = c :: cs := by simp [skipWs, hws]
      rw [hskip]
      show (if c = '+' then parseAfterSign cs false
            else if c = '-' then parseAfterSign cs true
            else parseAfterSign (c :: cs) false) = JsNumber.nan
      have htake : (c :: cs).take 8 ≠ infinityChars := by
        rw [show (8 : Nat) = 7 + 1 from rfl, List.take_succ_cons]
        simp [infinityChars, hI]
      have hpu : parseUnsigned (c :: cs) = none := by
        simp [parseUnsigned, parseDigitsAux_not_digit c cs 0 0 hdig, hdot]
      rw [if_neg hplus, if_neg hminus, parseAfterSign, if_neg htake, hpu]

/-- A raw API payment whose amount string has no numeric prefix. -/
def rawNonNumeric : ApiPayment :=
  ⟨"pay_1", 2025, 1, "INV-2025-0007", "client@everpower.com", "abc",
   "BANK_TRANSFER", "COMPLETED", "2025-01-01", "", ""⟩

/-- A second such raw record, used by the witness. -/
def rawNonNumeric2 : ApiPayment :=
  ⟨"pay_2", 2025, 2, "INV-2025-0008", "client@everpower.com", "xyz",
   "CASH", "PENDING", "2025-01-02", "", ""⟩

/-- C1 counterexample: for the raw record with amount string `abc`
(which does not parse as a decimal number), the mapping step of
`fetchPayments` does not return any error - it produces an ordinary
`Payment` record, and the amount field of that record is `NaN`.  This
contradicts both halves of the claim: no `MappingError` is returned,
and a `Payment` with `NaN` amount is produced. -/
theorem mapPayment_nonNumeric_yields_nan_payment :
    mapPayment id rawNonNumeric =
      ⟨"pay_1", "pay_1", "INV-2025-0007", "client@everpower.com",
       JsNumber.nan, "bank transfer", "completed", "2025-01-01", ""⟩ ∧
    (mapPayment id rawNonNumeric).amount = JsNumber.nan := by
  constructor <;> decide

/-- C1 (amended): the mapping step performs no numeric validation and
can signal no error; whenever the raw amount string has no numeric
prefix (here: any string of lower-case letters, the empty string
included), the produced `Payment` has amount `NaN`. -/
theorem mapPayment_unparsable_amount_is_nan (fmtDate : String → String)
    (raw : ApiPayment) (h : ∀ c ∈ raw.amount.data, c ∈ lowerAlphaChars) :
    (mapPayment fmtDate raw).amount = JsNumber.nan :=
  jsParseFloat_nan_of_lowerAlpha raw.amount h

/-- Witness for the amended C1 theorem at the concrete record with
amount `xyz`. -/
theorem mapPayment_unparsable_amount_is_nan_witness :
    (∀ c ∈ rawNonNumeric2.amount.data, c ∈ lowerAlphaChars) ∧
    (mapPayment id rawNonNumeric2).amount = JsNumber.nan :=
  ⟨by decide, mapPayment_unparsable_amount_is_nan id rawNonNumeric2 (by decide)⟩

/-- C10: every mapped payment has an empty reference (the mapper
hard-codes the reference to the empty string, discarding any reference data in the raw
record), so the payment-detail view always renders the fallback
text `N/A` for it. -/
theorem mapPayment_reference_always_na (fmtDate : String → String)
    (raw : ApiPayment) :
    (mapPayment fmtDate raw).reference = "" ∧
    viewedReference (mapPayment fmtDate raw) = "N/A" := by
  constructor
  · rfl
  · rfl

/-- A payment screen state as it stands while a list fetch is pending. -/
def exPayState : PayScreenState :=
  ⟨[], true, none, false, false, none, initialNewPayment⟩

/-- An HTTP 401 list response whose body carries a message. -/
def resp401 : PaymentsListResponse := ⟨401, some "token expired", []⟩

/-- C2 counterexample: a payments list fetch answered with HTTP 401
and body message `token expired` leaves the error state carrying the
generic status-derived text, not the body message - `fetchPayments`
throws before ever reading the response body. -/
theorem listFetch_401_keeps_generic_message :
    (fetchPaymentsRun id exPayState resp401).error =
      some "HTTP error! status: 401" ∧
    (fetchPaymentsRun id exPayState resp401).error ≠ some "token expired" := by
  constructor <;> decide

/-- C2 (amended): list-fetch failures always surface the generic
status-derived message and ignore the body; only the mutation
handlers (here: payment create) use the body message verbatim when it
is present and non-empty. -/
theorem listFetch_generic_mutation_verbatim
    (fmtDate : String → String) (s : PayScreenState)
    (resp : PaymentsListResponse) (h : respOk resp.status = false)
    (s2 : PayScreenState) (r2 : MutationResponse) (m : String)
    (h2 : respOk r2.status = false) (hm : r2.message = some m) (hne : m ≠ "") :
    (fetchPaymentsRun fmtDate s resp).error =
      some ("HTTP error! status: " ++ toString resp.status) ∧
    (handleCreatePaymentRun s2 r2).1.submitError = some m := by
  constructor
  · simp [fetchPaymentsRun, h]
  · simp [handleCreatePaymentRun, h2, jsOrDefault, hm, hne]

/-- A 401 mutation response with the same body message. -/
def mut401 : MutationResponse := ⟨401, some "token expired"⟩

/-- Witness for the amended C2 theorem at HTTP 401 with body message
`token expired`. -/
theorem listFetch_generic_mutation_verbatim_witness :
    respOk 401 = false ∧
    ((fetchPaymentsRun id exPayState resp401).error =
        some ("HTTP error! status: " ++ toString resp401.status) ∧
      (handleCreatePaymentRun exPayState mut401).1.submitError =
        some "token expired") :=
  ⟨by decide,
   listFetch_generic_mutation_verbatim id exPayState resp401 (by decide)
     exPayState mut401 "token expired" (by decide) rfl (by decide)⟩

/-- A 304 list response for payments. -/
def resp304pay : PaymentsListResponse := ⟨304, none, []⟩

/-- C3 counterexample: a payments list fetch answered with HTTP 304
transitions the screen into the error state (`response.ok` is false
for 304 and there is no dedicated branch), contradicting the claim
that no list fetch errors on 304. -/
theorem payments_304_sets_error_state :
    (fetchPaymentsRun id exPayState resp304pay).error =
      some "HTTP error! status: 304" ∧
    (fetchPaymentsRun id exPayState resp304pay).error ≠ none := by
  constructor <;> decide

/-- C3 (amended): only the invoice list fetch treats 304 as
no-change (cached list kept, no error); the payments list fetch keeps
its cached list but enters the error state, and the users list fetch
enters the error state AND clears the stored collection. -/
theorem notModified_behavior_by_screen
    (s : InvScreenState) (t : String) (resp : InvoicesListResponse)
    (h : resp.status = 304)
    (fmtDate : String → String) (s2 : PayScreenState)
    (r2 : PaymentsListResponse) (h2 : r2.status = 304)
    (s3 : UserScreenState) (r3 : UsersListResponse) (h3 : r3.status = 304) :
    (fetchInvoicesRun s (some t) resp).invoices = s.invoices ∧
    (fetchInvoicesRun s (some t) resp).error = none ∧
    (fetchPaymentsRun fmtDate s2 r2).payments = s2.payments ∧
    (fetchPaymentsRun fmtDate s2 r2).error = some "HTTP error! status: 304" ∧
    (fetchUsersRun s3 r3).users = [] ∧
    (fetchUsersRun s3 r3).error = some "HTTP error! status: 304" := by
  have hok2 : respOk r2.status = false := by rw [h2]; decide
  have hok3 : respOk r3.status = false := by rw [h3]; decide
  refine ⟨?_, ?_, ?_, ?_, ?_, ?_⟩
  · simp [fetchInvoicesRun, h]
  · simp [fetchInvoicesRun, h]
  · simp [fetchPaymentsRun, hok2]
  · rw [show (fetchPaymentsRun fmtDate s2 r2).error =
        some ("HTTP error! status: " ++ toString r2.status) by
          simp [fetchPaymentsRun, hok2], h2]
    decide
  · simp [fetchUsersRun, hok3]
  · rw [show (fetchUsersRun s3 r3).error =
        some ("HTTP error! status: " ++ toString r3.status) by
          simp [fetchUsersRun, hok3], h3]
    decide

/-- An invoice screen state holding one cached invoice. -/
def exInvoice : InvoiceRec :=
  ⟨"INV-2025-0001", 2025, 1, "client@everpower.com", "0771234567",
   "1500.50", "PENDING", "2025-01-01", "2025-02-01", none, "",
   none, "0", none, "", ""⟩

/-- An invoice screen state with a cached collection and no error. -/
def exInvState : InvScreenState := ⟨[exInvoice], true, none, false, none⟩

/-- A 304 list response for invoices. -/
def resp304inv : InvoicesListResponse := ⟨304, none, []⟩

/-- A 304 list response for users. -/
def resp304user : UsersListResponse := ⟨304, none, []⟩

/-- A user screen state with a cached collection. -/
def exUserState : UserScreenState :=
  ⟨[⟨"u1", "admin@everpower.com", "Admin", "admin", "active", "2024-01-01", none⟩],
   true, none, false, false, none, ⟨"", "", "", "accountant"⟩⟩

/-- Witness for the amended C3 theorem at concrete 304 responses on
all three screens. -/
theorem notModified_behavior_by_screen_witness :
    (fetchInvoicesRun exInvState (some "tok") resp304inv).invoices =
        exInvState.invoices ∧
    (fetchInvoicesRun exInvState (some "tok") resp304inv).error = none ∧
    (fetchPaymentsRun id exPayState resp304pay).payments = exPayState.payments ∧
    (fetchPaymentsRun id exPayState resp304pay).error =
      some "HTTP error! status: 304" ∧
    (fetchUsersRun exUserState resp304user).users = [] ∧
    (fetchUsersRun exUserState resp304user).error =
      some "HTTP error! status: 304" :=
  notModified_behavior_by_screen exInvState "tok" resp304inv rfl
    id exPayState resp304pay rfl exUserState resp304user rfl

/-- A successful (201) mutation response. -/
def mutCreated : MutationResponse := ⟨201, none⟩

/-- C4 counterexample: a successful payment create performs close
modal, clear form, refetch - in that order - but emits no success
notification whatsoever (PaymentManagement has no toast mechanism),
contradicting step (4) of the claimed side-effect sequence. -/
theorem paymentCreate_success_has_no_notification :
    (handleCreatePaymentRun exPayState mutCreated).2 =
      [.closeModal, .clearForm, .refetch] ∧
    (handleCreatePaymentRun exPayState mutCreated).2.countP Effect.isNotice = 0 := by
  constructor <;> decide

/-- C4 (amended): on a successful mutation response the payment screen
closes its modal, clears the form and triggers exactly one refetch,
with no notification; the invoice save flow does notify, but its
order is refetch, success toast, then modal close. -/
theorem mutation_success_effects
    (s : PayScreenState) (resp : MutationResponse)
    (h : respOk resp.status = true) (isEditing : Bool) :
    (handleCreatePaymentRun s resp).1.showCreateModal = false ∧
    (handleCreatePaymentRun s resp).1.newPayment = resetNewPayment ∧
    (handleCreatePaymentRun s resp).2 = [.closeModal, .clearForm, .refetch] ∧
    (handleCreatePaymentRun s resp).2.countP
      (fun e => e == Effect.refetch) = 1 ∧
    invoiceModalSuccessEffects isEditing =
      [.refetch, .notifySuccess (saveMessage isEditing), .closeModal] := by
  refine ⟨?_, ?_, ?_, ?_, ?_⟩
  · simp [handleCreatePaymentRun, h]
  · simp [handleCreatePaymentRun, h]
  · simp [handleCreatePaymentRun, h]
  · simp [handleCreatePaymentRun, h]
  · simp [invoiceModalSuccessEffects, handleInvoiceSavedEffects]

/-- Witness for the amended C4 theorem at a concrete 201 response. -/
theorem mutation_success_effects_witness :
    respOk 201 = true ∧
    ((handleCreatePaymentRun exPayState mutCreated).1.showCreateModal = false ∧
      (handleCreatePaymentRun exPayState mutCreated).1.newPayment = resetNewPayment ∧
      (handleCreatePaymentRun exPayState mutCreated).2 =
        [.closeModal, .clearForm, .refetch] ∧
      (handleCreatePaymentRun exPayState mutCreated).2.countP
        (fun e => e == Effect.refetch) = 1 ∧
      invoiceModalSuccessEffects false =
        [.refetch, .notifySuccess (saveMessage false), .closeModal]) :=
  ⟨by decide, mutation_success_effects exPayState mutCreated (by decide) false⟩

/-- A failing (500) mutation response with a body message. -/
def mutFailed : MutationResponse := ⟨500, some "amount must be positive"⟩

/-- An invoice screen state with the delete-confirmation modal open. -/
def exInvStateConfirm : InvScreenState := ⟨[exInvoice], false, none, true, none⟩

/-- C5 counterexample: the invoice delete confirm action, on a failing
response, CLOSES the confirmation modal (`setShowConfirmModal(false)`
appears in its catch branch), contradicting the claim that every
failing mutation keeps its modal open. -/
theorem invoiceDelete_failure_closes_modal :
    exInvStateConfirm.showConfirmModal = true ∧
    (invoiceDeleteRun exInvStateConfirm mutFailed).1.showConfirmModal = false := by
  constructor <;> decide

/-- C5 (amended): failing payment-create and user-add mutations keep
their modal open, populate their error message from the failure, do
not refetch and leave the form untouched; the one exception is the
invoice delete confirm action, which closes its confirmation modal on
failure (surfacing the error as a toast instead). -/
theorem mutation_failure_behavior
    (s : PayScreenState) (r : MutationResponse) (h : respOk r.status = false)
    (su : UserScreenState) (ru : MutationResponse)
    (hu : respOk ru.status = false)
    (si : InvScreenState) (ri : MutationResponse)
    (hi : respOk ri.status = false) :
    (handleCreatePaymentRun s r).1.showCreateModal = s.showCreateModal ∧
    (handleCreatePaymentRun s r).1.submitError =
      some (jsOrDefault r.message "An unknown error occurred.") ∧
    (handleCreatePaymentRun s r).1.newPayment = s.newPayment ∧
    (handleCreatePaymentRun s r).2 = [] ∧
    (handleAddUserRun su ru).1.showCreateModal = su.showCreateModal ∧
    (handleAddUserRun su ru).1.form = su.form ∧
    (handleAddUserRun su ru).1.addUserError =
      some ("Failed to add user! Status: " ++ toString ru.status) ∧
    (handleAddUserRun su ru).2 = [] ∧
    (invoiceDeleteRun si ri).1.showConfirmModal = false ∧
    (invoiceDeleteRun si ri).1.error = some "Failed to delete invoice." := by
  refine ⟨?_, ?_, ?_, ?_, ?_, ?_, ?_, ?_, ?_, ?_⟩ <;>
    simp [handleCreatePaymentRun, handleAddUserRun, invoiceDeleteRun, h, hu, hi]

/-- Witness for the amended C5 theorem at concrete failing responses. -/
theorem mutation_failure_behavior_witness :
    respOk 500 = false ∧
    ((handleCreatePaymentRun exPayState mutFailed).1.showCreateModal =
        exPayState.showCreateModal ∧
      (handleCreatePaymentRun exPayState mutFailed).1.submitError =
        some (jsOrDefault mutFailed.message "An unknown error occurred.") ∧
      (handleCreatePaymentRun exPayState mutFailed).1.newPayment =
        exPayState.newPayment ∧
      (handleCreatePaymentRun exPayState mutFailed).2 = [] ∧
      (handleAddUserRun exUserState mutFailed).1.showCreateModal =
        exUserState.showCreateModal ∧
      (handleAddUserRun exUserState mutFailed).1.form = exUserState.form ∧
      (handleAddUserRun exUserState mutFailed).1.addUserError =
        some ("Failed to add user! Status: " ++ toString mutFailed.status) ∧
      (handleAddUserRun exUserState mutFailed).2 = [] ∧
      (invoiceDeleteRun exInvStateConfirm mutFailed).1.showConfirmModal = false ∧
      (invoiceDeleteRun exInvStateConfirm mutFailed).1.error =
        some "Failed to delete invoice.") :=
  ⟨by decide,
   mutation_failure_behavior exPayState mutFailed (by decide)
     exUserState mutFailed (by decide) exInvStateConfirm mutFailed (by decide)⟩

/-- C6 counterexample: with no credential in the store, the payments
list fetch still issues its network request, with the Authorization
header interpolating the literal text `null` - there is no fail-fast
Unauthenticated path on the payments screen. -/
theorem payments_fetch_issued_without_token :
    fetchPaymentsRequest "https://api.example.com" none =
      some ⟨"https://api.example.com/payments", "GET", "Bearer null"⟩ ∧
    (fetchPaymentsRequest "https://api.example.com" none).isSome = true := by
  constructor <;> decide

/-- C6 (amended): only the invoice screen fails fast with no network
request when the credential is absent (storing the message
`No authentication token found.`); the payment and user operations
issue their requests regardless, with a `Bearer null` header. -/
theorem missing_token_behavior (apiUrl : String) (s : InvScreenState)
    (resp : InvoicesListResponse) :
    fetchInvoicesRequest apiUrl none = none ∧
    (fetchInvoicesRun s none resp).error =
      some "No authentication token found." ∧
    fetchPaymentsRequest apiUrl none =
      some ⟨apiUrl ++ "/payments", "GET", "Bearer null"⟩ ∧
    createPaymentRequest apiUrl none =
      some ⟨apiUrl ++ "/payments", "POST", "Bearer null"⟩ ∧
    fetchUsersRequest apiUrl none "" =
      some ⟨apiUrl ++ "/users", "GET", "Bearer null"⟩ := by
  refine ⟨rfl, ?_, rfl, rfl, ?_⟩
  · simp [fetchInvoicesRun]
  · simp [fetchUsersRequest, jsTokenString]

/-- An in-flight payment screen state (`isSubmitting = true`). -/
def exSubmittingState : PayScreenState :=
  ⟨[], false, none, true, true, none, initialNewPayment⟩

/-- One click on the Delete button of the invoice delete confirmation
modal (ConfirmationModal, InvoiceManagement.tsx lines 264-269): that
button carries no `disabled` prop and the screen has no submitting
flag for it, and the confirm action closes the modal only after its
awaited response, so every click - also one made while an earlier
DELETE is still in flight - invokes the confirm action again, which
issues the DELETE request and changes no state until the response
arrives.  This is the request phase of one such click with a token
present. -/
def confirmDeleteClick (apiUrl invoiceId token : String)
    (s : InvScreenState) : InvScreenState × List HttpRequest :=
  (s, [⟨apiUrl ++ "/invoices/" ++ invoiceId, "DELETE", "Bearer " ++ token⟩])

/-- C7 counterexample: the first click on the unguarded invoice delete
confirm button leaves the screen state unchanged (the modal stays
open, no flag is set), so a second click made while the first DELETE
is still in flight issues a second, identical DELETE request - a
mutation action for which the claimed no-op guard does not exist. -/
theorem invoiceDeleteConfirm_second_click_issues_request :
    (confirmDeleteClick "https://api.example.com" "INV-2025-0001" "tok"
        exInvStateConfirm).1 = exInvStateConfirm ∧
    (confirmDeleteClick "https://api.example.com" "INV-2025-0001" "tok"
        (confirmDeleteClick "https://api.example.com" "INV-2025-0001" "tok"
          exInvStateConfirm).1).2 =
      [⟨"https://api.example.com/invoices/INV-2025-0001", "DELETE",
        "Bearer tok"⟩] := by
  constructor <;> decide

/-- C7 (amended): the payment mutation controls (like the user and
invoice-save controls) are rendered `disabled={isSubmitting}`, so a
second submit while one is in flight is a no-op there - no state
change, no additional request; the one exception is the Delete button
of the invoice delete confirmation modal, which has no such guard:
every click on it issues another DELETE request and changes no state
until the response arrives, so a second click during the in-flight
delete duplicates the request. -/
theorem submit_guard_by_screen (apiUrl : String) (token : Option String)
    (s : PayScreenState) (h : s.isSubmitting = true)
    (invUrl invId tok : String) (si : InvScreenState) :
    recordPaymentClick apiUrl token s = (s, []) ∧
    confirmDeleteClick invUrl invId tok si =
      (si, [⟨invUrl ++ "/invoices/" ++ invId, "DELETE", "Bearer " ++ tok⟩]) := by
  constructor
  · simp [recordPaymentClick, h]
  · rfl

/-- Witness for the amended C7 theorem at a concrete in-flight payment
state and a concrete invoice confirm click. -/
theorem submit_guard_by_screen_witness :
    exSubmittingState.isSubmitting = true ∧
    (recordPaymentClick "https://api.example.com" (some "tok") exSubmittingState =
        (exSubmittingState, []) ∧
      confirmDeleteClick "https://api.example.com" "INV-2025-0002" "tok"
          exInvStateConfirm =
        (exInvStateConfirm,
         [⟨"https://api.example.com" ++ "/invoices/" ++ "INV-2025-0002",
           "DELETE", "Bearer " ++ "tok"⟩])) :=
  ⟨rfl, submit_guard_by_screen "https://api.example.com" (some "tok")
    exSubmittingState rfl "https://api.example.com" "INV-2025-0002" "tok"
    exInvStateConfirm⟩

/-- C8: over any filtered payment collection whose statuses lie in the
four-value enumeration declared by the `Payment` type, the four
per-status sums (`amountByStatus` over completed, pending, failed,
refunded) partition `totalAmount`. -/
theorem amountByStatus_partition_total
    (searchTerm statusFilter methodFilter : String) (l : List Payment)
    (h : ∀ p ∈ l, p.status = "completed" ∨ p.status = "pending" ∨
        p.status = "failed" ∨ p.status = "refunded") :
    amountByStatus "completed"
        (filteredPayments searchTerm statusFilter methodFilter l) +
      amountByStatus "pending"
        (filteredPayments searchTerm statusFilter methodFilter l) +
      amountByStatus "failed"
        (filteredPayments searchTerm statusFilter methodFilter l) +
      amountByStatus "refunded"
        (filteredPayments searchTerm statusFilter methodFilter l) =
      totalAmount (filteredPayments searchTerm statusFilter methodFilter l) := by
  apply amountByStatus_partition
  intro p hp
  exact h p (List.mem_of_mem_filter hp)

/-- Two concrete mapped payments used by the C8 witness. -/
def exPay1 : Payment :=
  ⟨"p1", "p1", "INV-2025-0001", "alice@everpower.com", .finite 10,
   "cash", "completed", "1/1/2025", ""⟩

/-- A second concrete payment. -/
def exPay2 : Payment :=
  ⟨"p2", "p2", "INV-2025-0002", "bob@everpower.com", .finite 5,
   "bank transfer", "pending", "1/2/2025", ""⟩

/-- Witness for C8 on a concrete two-payment collection with inert
filters. -/
theorem amountByStatus_partition_total_witness :
    ([exPay1, exPay2].all (fun p => p.status == "completed" ||
        p.status == "pending" || p.status == "failed" ||
        p.status == "refunded")) = true ∧
    amountByStatus "completed" (filteredPayments "" "all" "all" [exPay1, exPay2]) +
      amountByStatus "pending" (filteredPayments "" "all" "all" [exPay1, exPay2]) +
      amountByStatus "failed" (filteredPayments "" "all" "all" [exPay1, exPay2]) +
      amountByStatus "refunded" (filteredPayments "" "all" "all" [exPay1, exPay2]) =
      totalAmount (filteredPayments "" "all" "all" [exPay1, exPay2]) :=
  ⟨by decide,
   amountByStatus_partition_total "" "all" "all" [exPay1, exPay2] (by decide)⟩

theorem debtorGe_trans (a b c : TopDebtor) (hab : debtorGe a b = true)
    (hbc : debtorGe b c = true) : debtorGe a c = true := by
  simp only [debtorGe, decide_eq_true_eq] at hab hbc ⊢
  exact le_trans hbc hab

theorem debtorGe_total (a b : TopDebtor) :
    (debtorGe a b || debtorGe b a) = true := by
  simp only [debtorGe, Bool.or_eq_true, decide_eq_true_eq]
  exact le_total b.outstanding a.outstanding

/-- C9 counterexample: with an empty debtor list and a strictly
positive total outstanding (residual 100 > 0), the chart series is
empty - no `Others` entry is produced, although the claim, quantified
over every debtor list, requires one whenever the residual is
strictly positive. -/
theorem outstandingData_empty_no_others :
    outstandingData [] 100 = [] ∧
    outstandingData [] 100 ≠ [⟨"Others", 100⟩] := by
  constructor
  · rfl
  · intro hcontra
    exact absurd (congrArg List.length hcontra) (by decide)

/-- C9 (amended): for every NON-EMPTY debtor list, the chart series is
the top-4 debtors re-sorted descending by outstanding (regardless of
input order), followed by an `Others` entry worth the total minus the
top-4 sum exactly when that residual is strictly positive (so none
when the total equals the top sum); the displayed entries are sorted
descending and dominate every debtor left out of the top 4. -/
theorem outstandingData_nonempty_spec (l : List TopDebtor) (total : ℚ)
    (h : l ≠ []) :
    outstandingData l total =
      topDebtorEntries l ++
        (if 0 < total - topDebtorSum l
         then [⟨"Others", total - topDebtorSum l⟩] else []) ∧
    List.Pairwise (fun x y : ChartEntry => y.value ≤ x.value)
      (topDebtorEntries l) ∧
    (∀ x ∈ (sortedDebtors l).take 4, ∀ y ∈ (sortedDebtors l).drop 4,
      y.outstanding ≤ x.outstanding) := by
  have hs : List.Pairwise (fun a b => debtorGe a b = true) (sortedDebtors l) :=
    @List.sorted_mergeSort TopDebtor debtorGe
      (fun a b c => debtorGe_trans a b c) debtorGe_total l
  refine ⟨?_, ?_, ?_⟩
  · rw [outstandingData, if_neg h]
    show (if 0 < total - topDebtorSum l
          then topDebtorEntries l ++ [⟨"Others", total - topDebtorSum l⟩]
          else topDebtorEntries l) = _
    by_cases hb : 0 < total - topDebtorSum l
    · rw [if_pos hb, if_pos hb]
    · rw [if_neg hb, if_neg hb, List.append_nil]
  · have htake : List.Pairwise (fun a b => debtorGe a b = true)
        ((sortedDebtors l).take 4) :=
      hs.sublist (List.take_sublist 4 _)
    rw [topDebtorEntries, List.pairwise_map]
    exact htake.imp (fun hab => by
      simpa [debtorGe, decide_eq_true_eq] using hab)
  · have happ : List.Pairwise (fun a b => debtorGe a b = true)
        ((sortedDebtors l).take 4 ++ (sortedDebtors l).drop 4) := by
      rw [List.take_append_drop]
      exact hs
    have hcross := (List.pairwise_append.mp happ).2.2
    intro x hx y hy
    have := hcross x hx y hy
    simpa [debtorGe, decide_eq_true_eq] using this

/-- The debtor list of the testable-property example in the
specification (outstanding values 100, 80, 60, 40, 20), deliberately
given out of order to exercise the defensive re-sort. -/
def exDebtors : List TopDebtor :=
  [⟨"d3@x.com", 1, 60⟩, ⟨"d1@x.com", 2, 100⟩, ⟨"d5@x.com", 1, 20⟩,
   ⟨"d2@x.com", 3, 80⟩, ⟨"d4@x.com", 1, 40⟩]

/-- Witness for the amended C9 theorem at the concrete debtor list
with total outstanding 320. -/
theorem outstandingData_nonempty_spec_witness :
    exDebtors ≠ [] ∧
    outstandingData exDebtors 320 =
      topDebtorEntries exDebtors ++
        (if 0 < (320 : ℚ) - topDebtorSum exDebtors
         then [⟨"Others", (320 : ℚ) - topDebtorSum exDebtors⟩] else []) :=
  ⟨by decide, (outstandingData_nonempty_spec exDebtors 320 (by decide)).1⟩

example :
    outstandingData exDebtors 320 =
      [⟨"d1", 100⟩, ⟨"d2", 80⟩, ⟨"d3", 60⟩, ⟨"d4", 40⟩, ⟨"Others", 40⟩] := by
  simp +decide [outstandingData, topDebtorEntries, topDebtorSum, sortedDebtors,
    exDebtors, debtorGe, emailLocal, List.mergeSort]
  norm_num

example :
    outstandingData exDebtors 280 = [⟨"d1", 100⟩, ⟨"d2", 80⟩, ⟨"d3", 60⟩, ⟨"d4", 40⟩] := by
  simp +decide [outstandingData, topDebtorEntries, topDebtorSum, sortedDebtors,
    exDebtors, debtorGe, emailLocal, List.mergeSort]
  norm_num
